import Mathlib

/-!
Verification development for the autocoder repository.

This file gives a shallow embedding of the two invariant-bearing parts of the
repository and proves properties about them:

1. the composable test-suite abstraction
   (src/autocoder/tests/python_tests.py, class PythonTests), and
2. the recursive build/refine control loop
   (src/autocoder/coders/coder.py, class Coder; the near-identical draft
   src/autocoder/core/coder.py differs only in method naming and in the
   scaffold signature, not in any behaviour proved here).

File-system paths are strings.  The file-system state is an explicit
parameter `fs : FPath → Bool` standing for `os.path.isfile`.  The external
pytest subprocess is an oracle `runner : FPath → Finset FPath → Bool × String`
mapping the python executable and the set of files placed on the command line
to (returncode == 0, decoded stdout).

The abstract base class `Tests`/`NoTests` lives in src/autocoder/tests/tests.py
(imported by python_tests.py as `from .tests import Tests` and by coder.py as
`from ..tests.tests import Tests, NoTests`), a file that is not part of the
repository snapshot.  Everything that is decided by that missing file is
modelled from the specification and marked `Modelled from the spec:` in its
doc comment; everything else is translated directly from the sources.
-/

/-- File-system paths, as handed around by the repository (os.PathLike). -/
abbrev FPath := String

mutual
/-- Value-level view of a test-suite object.  `noTests` is the terminal empty
variant (class NoTests of the missing tests.py).  `pythonTests` is class
PythonTests of src/autocoder/tests/python_tests.py with its three instance
fields: `main_test_files` (a set of paths), `other_tests` (the nested child
suites, carried here in iteration order), and `python_executable`.  The
`project_home` attribute stored by the base-class constructor is not read by
any of the operations modelled here and is omitted. -/
inductive Tests where
  | noTests : Tests
  | pythonTests (main_test_files : Finset FPath) (other_tests : TestsList) (python_executable : FPath) : Tests

/-- The list of nested child suites of a PythonTests object. -/
inductive TestsList where
  | nil : TestsList
  | cons (t : Tests) (ts : TestsList) : TestsList
end

/-- Conversion of the child list to a plain Lean list, used to state theorems. -/
def TestsList.toList : TestsList → List Tests
  | .nil => []
  | .cons t ts => t :: ts.toList

/-- The `isinstance(unit_tests, NoTests)` test used at coder.py line 60. -/
def Tests.isNoTests : Tests → Bool
  | .noTests => true
  | .pythonTests _ _ _ => false

/-- PythonTests.TEST_RESULT_SEPARATOR (python_tests.py line 35). -/
def TEST_RESULT_SEPARATOR : String := "\n\n"

/-- Merge of two suites, written `a + b` / `a += b` in the sources.

Modelled from the spec: the `+` operator is defined by the Tests base class in
the missing tests.py; spec section 3 states "merging with NoTests is the
identity operation in both directions", giving the first two equations.  The
remaining case (both operands concrete PythonTests suites) is decided by
source code: PythonTests._combine, python_tests.py lines 19-22 —
`self.main_test_files |= tests.main_test_files; return self` — so the result
keeps the left suite's nested children and executable and unions the main
file sets; the right suite's nested children are not carried over.  (The
different-kind nesting branch of _combine, line 24, is unreachable at this
value level because NoTests is the only other concrete kind in the repository;
that branch is modelled by `combineInPlace` on the heap view below.) -/
def Tests.merge : Tests → Tests → Tests
  | t, .noTests => t
  | .noTests, t => t
  | .pythonTests m o exe, .pythonTests m2 _ _ => .pythonTests (m ∪ m2) o exe

mutual
/-- PythonTests.test_files (python_tests.py lines 27-33): the union of
`_main_test_files()` — the main set filtered by `os.path.isfile` — with the
test_files() of every nested child suite.  NoTests contributes nothing
(Modelled from the spec: NoTests is the "terminal empty variant" and holds no
files; its test_files method lives in the missing tests.py). -/
def Tests.test_files (fs : FPath → Bool) : Tests → Finset FPath
  | .noTests => ∅
  | .pythonTests m o _ => m.filter (fun p => fs p = true) ∪ TestsList.test_files_union fs o

/-- Union of test_files over a child list (the set comprehension of
python_tests.py line 29). -/
def TestsList.test_files_union (fs : FPath → Bool) : TestsList → Finset FPath
  | .nil => ∅
  | .cons t ts => Tests.test_files fs t ∪ TestsList.test_files_union fs ts
end

mutual
/-- The transitive union of main test files across a suite and all nested
children, with no file-system filtering.  This is the specification-side
notion used to state the test_files claims ("transitive union, filtered to
paths that currently exist"); it is compared against the source-translated
`Tests.test_files` above. -/
def Tests.all_main_files : Tests → Finset FPath
  | .noTests => ∅
  | .pythonTests m o _ => m ∪ TestsList.all_main_files_union o

/-- Union of all_main_files over a child list. -/
def TestsList.all_main_files_union : TestsList → Finset FPath
  | .nil => ∅
  | .cons t ts => Tests.all_main_files t ∪ TestsList.all_main_files_union ts
end

mutual
/-- PythonTests._run (python_tests.py lines 37-49), reached through the public
run() of the missing base class (Modelled from the spec: spec section 4.2 has
run execute the main file set through the test-execution collaborator,
recursively run the children and combine the results, with no further
behaviour, so run delegates directly to the concrete _run; NoTests has
nothing to run and yields success with empty output).

For a PythonTests suite: one subprocess invocation
`[python_executable, -m, pytest, *main_test_files]` — note the raw,
unfiltered `self.main_test_files` at line 38 — produces the main result;
every nested child is run (line 41); success is the conjunction of the main
returncode check with all child successes (lines 43-44, 49); the diagnostics
are the main stdout followed by each child's diagnostics, joined with
TEST_RESULT_SEPARATOR (line 47). -/
def Tests.run (runner : FPath → Finset FPath → Bool × String) : Tests → Bool × String
  | .noTests => (true, "")
  | .pythonTests m o exe =>
    (((runner exe m).1 && (TestsList.runList runner o).all (fun r => r.1)),
      String.intercalate TEST_RESULT_SEPARATOR ((runner exe m).2 :: (TestsList.runList runner o).map (fun r => r.2)))

/-- The run results of the nested children, in order (python_tests.py
line 41). -/
def TestsList.runList (runner : FPath → Finset FPath → Bool × String) : TestsList → List (Bool × String)
  | .nil => []
  | .cons t ts => Tests.run runner t :: TestsList.runList runner ts
end

mutual
/-- The subprocess invocations that running a suite performs, in order: each
PythonTests node contributes exactly one pytest invocation carrying its
python_executable and its complete, unfiltered main_test_files set
(python_tests.py line 38), followed by the invocations of its children
(line 41).  NoTests performs none. -/
def Tests.run_invocations : Tests → List (FPath × Finset FPath)
  | .noTests => []
  | .pythonTests m o exe => (exe, m) :: TestsList.run_invocations_list o

/-- Concatenation of the run invocations of a child list, in order. -/
def TestsList.run_invocations_list : TestsList → List (FPath × Finset FPath)
  | .nil => []
  | .cons t ts => Tests.run_invocations t ++ TestsList.run_invocations_list ts
end

/-- Formalisation of the claim "a referenced test file missing from disk is
silently excluded from the run": every path handed to the test runner by any
of the suite's subprocess invocations exists on disk. -/
abbrev missingExcludedFromRun (fs : FPath → Bool) (t : Tests) : Prop :=
  ∀ inv ∈ t.run_invocations, ∀ p ∈ inv.2, fs p = true

/-- Heap view of test-suite objects, used to state the in-place/aliasing
properties of PythonTests._combine.  An object is either a NoTests instance
or a PythonTests instance whose `other_tests` field holds references (heap
ids) to other suite objects, matching the Python object graph. -/
inductive TestsObj where
  | noTestsObj : TestsObj
  | pythonTestsObj (main_test_files : Finset FPath) (other_tests : Finset Nat) (python_executable : FPath) : TestsObj

/-- A heap of test-suite objects addressed by ids. -/
abbrev Heap := Nat → TestsObj

/-- PythonTests._combine (python_tests.py lines 19-25) on the heap view:
`combineInPlace h self other` is the heap after `h[self]._combine(h[other])`
together with the id of the returned object.  When self is a PythonTests:
if the argument is also a PythonTests the main file sets are unioned in place
(lines 20-22), otherwise the argument's reference is added to self's
other_tests set (line 24); both branches return self (lines 22, 25).  When
self is a NoTests the behaviour is in the missing tests.py — Modelled from
the spec: merging with NoTests is the identity, so NoTests._combine returns
the other object and leaves the heap untouched. -/
def combineInPlace (h : Heap) (self other : Nat) : Heap × Nat :=
  match h self with
  | .noTestsObj => (h, other)
  | .pythonTestsObj m o exe =>
    match h other with
    | .pythonTestsObj m2 _ _ => (Function.update h self (.pythonTestsObj (m ∪ m2) o exe), self)
    | .noTestsObj => (Function.update h self (.pythonTestsObj m (insert other o) exe), self)

/-- Errors the build can raise.  `noSubcoderAvailable` is the
`ValueError("No coders to choose from.")` of Coder.choose_subcoder
(coders/coder.py line 124; identically Coder._choose_subcoder,
core/coder.py line 140) — the error the specification names
NoSubcoderAvailable.  `unpackTypeError` is the runtime TypeError produced at
coders/coder.py line 53, where the recursive `subcoder.build(...)` result is
unpacked as a pair `subcoder_touched_files, subcoder_tests = ...` although
build returns a single set (line 83); in Python such an unpacking fails
unless the set happens to have exactly two elements, in which case it binds
two arbitrary paths, which is modelled uniformly as the failure. -/
inductive BuildError where
  | noSubcoderAvailable : BuildError
  | unpackTypeError : BuildError
deriving DecidableEq

/-- The value a completed build hands back: either a bare set of paths — the
form the source actually returns at coders/coder.py line 83,
`touched_project_files | touched_test_files` — or the pair
(touched files, test suite) promised by the Tuple[Set[os.PathLike], Tests]
annotation and docstring and expected by the recursive call site at line 53. -/
abbrev BuildVal := Finset FPath ⊕ Finset FPath × Tests

/-- Outcome of a (fuel-bounded) build: normal completion, a raised error, or
fuel exhaustion.  The source's while loop (coders/coder.py lines 71-81) has
no iteration bound, so the embedding bounds it with explicit fuel;
`outOfFuel` marks a run that was still looping when the fuel ran out. -/
inductive BuildOutcome where
  | ok (v : BuildVal) : BuildOutcome
  | err (e : BuildError) : BuildOutcome
  | outOfFuel : BuildOutcome

/-- Outcome of the dev-plan loop (coders/coder.py lines 50-56). -/
inductive DevOutcome where
  | done (touched : Finset FPath) (unit_tests : Tests) : DevOutcome
  | err (e : BuildError) : DevOutcome
  | outOfFuel : DevOutcome

/-- The collaborator methods Coder.build drives, collected as oracles.  Each
field is the abstract method of the same name in coders/coder.py (the
`chooser` field is the abstract `_choose_subcoder`); `fs` is `os.path.isfile`
and `runner` the pytest subprocess, both taken as fixed for one build. -/
structure CoderOps where
  design_solution : String → String
  scaffold : String → FPath → Finset FPath
  should_generate_dev_plan : String → Bool
  generate_dev_plan : String → List String
  allowed_subcoders : Finset String
  chooser : String → Finset String → String
  code : String → Finset FPath
  generate_tests : String → Finset FPath → Bool → Finset FPath → Option String → Tests
  refine : String → Finset FPath → String → Finset FPath
  fs : FPath → Bool
  runner : FPath → Finset FPath → Bool × String

/-- Coder.choose_subcoder (coders/coder.py lines 112-126): an empty candidate
set raises ValueError("No coders to choose from.") at line 124 — returned
here as the error — before the abstract `_choose_subcoder` is consulted;
otherwise the chooser's pick is returned.  Coder._choose_subcoder of
core/coder.py lines 128-142 performs the identical guard. -/
def choose_subcoder (chooser : String → Finset String → String) (task : String)
    (allowed_subcoders : Finset String) : Except BuildError String :=
  if allowed_subcoders.card = 0 then .error .noSubcoderAvailable
  else .ok (chooser task allowed_subcoders)

/-- Coder.feedback_hook (coders/coder.py lines 85-98).  The test results fed
to it are the diagnostics string produced by run(), so the
`isinstance(test_results, str)` branch applies and the results pass through
unchanged; the non-string branch returning "" is unreachable here. -/
def feedback_hook (test_results : String) : String := test_results

/-- The refinement loop of Coder.build (coders/coder.py lines 70-81), with the
already-computed (passes_tests, test_results) of the most recent run()
threaded in.  While the tests do not pass: feedback is taken from the hook
(line 72), refine's files are unioned into the touched project files
(line 73), fresh tests are generated with the accumulated test files and the
last results (line 75), merged into the suite (line 76), their files unioned
into the touched test files (lines 78-79 — the `new_tests is not None` guard
is always satisfied here since the generate_tests oracle returns a suite),
and the suite is re-run (line 81).  On success the union
`touched_project_files | touched_test_files` is returned as the bare set of
line 83.  The source's while loop has no bound; `fuel` bounds the embedding
and running out of it yields `outOfFuel`. -/
def refineLoop (ops : CoderOps) (spec : String) (integration : Bool) :
    Nat → Tests → Finset FPath → Finset FPath → Bool → String → BuildOutcome
  | _, _, touched, touchedTest, true, _ => .ok (.inl (touched ∪ touchedTest))
  | 0, _, _, _, false, _ => .outOfFuel
  | fuel + 1, generated, touched, touchedTest, false, results =>
    let feedback := feedback_hook results
    let touched2 := touched ∪ ops.refine spec touched feedback
    let newTests := ops.generate_tests spec touched2 integration touchedTest (some results)
    let generated2 := Tests.merge generated newTests
    let touchedTest2 := touchedTest ∪ Tests.test_files ops.fs newTests
    let r := Tests.run ops.runner generated2
    refineLoop ops spec integration fuel generated2 touched2 touchedTest2 r.1 r.2

/-- The tail of Coder.build shared by the atomic and composite paths
(coders/coder.py lines 60-83): decide the test kind from
`isinstance(unit_tests, NoTests)` (line 60), generate the first tests
(line 64; existing_test_files defaults to the empty set and test_results to
None), merge in the accumulated unit tests (line 65), record the generated
test files (line 67), run once (line 70) and enter the refinement loop. -/
def buildTail (ops : CoderOps) (loopFuel : Nat) (spec : String)
    (touched : Finset FPath) (unit_tests : Tests) : BuildOutcome :=
  let integration := unit_tests.isNoTests
  let generated0 := ops.generate_tests spec touched integration ∅ none
  let generated := Tests.merge generated0 unit_tests
  let touchedTest := Tests.test_files ops.fs generated
  let r := Tests.run ops.runner generated
  refineLoop ops spec integration loopFuel generated touched touchedTest r.1 r.2

/-- The dev-plan loop of Coder.build (coders/coder.py lines 50-56): for each
dev step in plan order, choose_subcoder runs first (line 51) and its
ValueError aborts the loop; then the subcoder's recursive build result is
unpacked as a pair (line 53) — since build actually returns a bare set
(line 83), the unpacking is the `unpackTypeError`; in the hypothetical pair
case the files are unioned into the touched set (line 54) and the tests are
merged into the accumulating unit_tests (line 56). -/
def devSteps (chooser : String → Finset String → String) (allowed : Finset String)
    (subBuild : String → BuildOutcome) : List String → Finset FPath → Tests → DevOutcome
  | [], touched, unit_tests => .done touched unit_tests
  | step :: rest, touched, unit_tests =>
    match choose_subcoder chooser step allowed with
    | .error e => .err e
    | .ok _ =>
      match subBuild step with
      | .ok (.inl _) => .err .unpackTypeError
      | .ok (.inr (files, tests)) =>
        devSteps chooser allowed subBuild rest (touched ∪ files) (Tests.merge unit_tests tests)
      | .err e => .err e
      | .outOfFuel => .outOfFuel

/-- Coder.build (coders/coder.py lines 23-83).  A design is produced
(line 41), the scaffold files are recorded (line 43), and unit_tests starts
at NoTests (line 46).  On the composite path (lines 47-56) the dev plan is
generated — with no emptiness or validity check — and the dev-plan loop runs;
on the atomic path (line 58) code() is invoked once.  Both paths finish
through buildTail, ultimately returning the bare union set of line 83.
Recursion depth and the unbounded while loop are both bounded by `fuel`.
The `project_home or os.getcwd()` defaulting of line 39 is elided: the
embedding always receives the project home explicitly. -/
def build (ops : CoderOps) : Nat → String → FPath → BuildOutcome
  | 0, _, _ => .outOfFuel
  | fuel + 1, spec, project_home =>
    let design := ops.design_solution spec
    let touched0 := ops.scaffold design project_home
    if ops.should_generate_dev_plan design then
      match devSteps ops.chooser ops.allowed_subcoders
          (fun step => build ops fuel step project_home)
          (ops.generate_dev_plan design) touched0 .noTests with
      | .done touched unit_tests => buildTail ops fuel spec touched unit_tests
      | .err e => .err e
      | .outOfFuel => .outOfFuel
    else
      buildTail ops fuel spec (touched0 ∪ ops.code design) .noTests

/-- Decidable error check on a build outcome. -/
def BuildOutcome.isErr : BuildOutcome → Bool
  | .err _ => true
  | _ => false

/-- A test runner that never reports success, modelling a pathological
specification whose tests never pass. -/
abbrev alwaysFailingRunner (runner : FPath → Finset FPath → Bool × String) : Prop :=
  ∀ exe files, (runner exe files).1 = false

/-- A generate_tests collaborator that always returns a concrete (non-NoTests)
suite, as the repository's PythonOpenAICoder does (python_coder.py line 63
always builds a PythonTests). -/
abbrev alwaysConcreteTests (g : String → Finset FPath → Bool → Finset FPath → Option String → Tests) : Prop :=
  ∀ spec files integration existing results, (g spec files integration existing results).isNoTests = false

/-- A one-file concrete PythonTests suite used by the concrete build
scenarios below. -/
def trivialTests : Tests := .pythonTests {"t.py"} .nil "python"

/-- A concrete, fully deterministic set of collaborators: an atomic design
(no dev plan), one scaffold file, one code file, a generate_tests that
returns `trivialTests`, and a test runner that always passes. -/
def opsBase : CoderOps where
  design_solution := fun s => s
  scaffold := fun _ _ => {"scaffold.py"}
  should_generate_dev_plan := fun _ => false
  generate_dev_plan := fun _ => []
  allowed_subcoders := {"PythonOpenAICoder"}
  chooser := fun _ _ => "PythonOpenAICoder"
  code := fun _ => {"main.py"}
  generate_tests := fun _ _ _ _ _ => trivialTests
  refine := fun _ _ _ => {"main.py"}
  fs := fun _ => true
  runner := fun _ _ => (true, "1 passed")

/-- opsBase with a composite top-level design: the top specification "spec"
is split into the single dev step "step1", which is itself atomic. -/
def opsCompositeDemo : CoderOps :=
  { opsBase with
    should_generate_dev_plan := fun d => d == "spec"
    generate_dev_plan := fun _ => ["step1"] }

/-- opsBase with a test runner that never reports success. -/
def opsNeverPass : CoderOps :=
  { opsBase with runner := fun _ _ => (false, "1 failed") }

/-- opsBase with a composite design whose generated dev plan is empty. -/
def opsEmptyPlan : CoderOps :=
  { opsBase with
    should_generate_dev_plan := fun _ => true
    generate_dev_plan := fun _ => [] }

/-- opsBase with a composite design, a nonempty dev plan and an empty
allowed_subcoders set. -/
def opsNoSubcoders : CoderOps :=
  { opsBase with
    allowed_subcoders := ∅
    should_generate_dev_plan := fun _ => true
    generate_dev_plan := fun _ => ["step1"] }

/-- A two-object heap: object 0 is a PythonTests with one main file and no
children, object 1 (and every other id) a NoTests instance. -/
def heapDemo : Heap := fun n => if n = 0 then .pythonTestsObj {"a.py"} ∅ "python" else .noTestsObj

/-- Helper: the run results of a child list are the pointwise run results of
its underlying list. -/
theorem TestsList.runList_eq_map (runner : FPath → Finset FPath → Bool × String) :
    ∀ l : TestsList, TestsList.runList runner l = (TestsList.toList l).map (Tests.run runner)
  | .nil => rfl
  | .cons t ts => by
      simp only [TestsList.runList, TestsList.toList, List.map_cons,
        TestsList.runList_eq_map runner ts]

mutual
/-- Helper: test_files is the transitive union of main files filtered by the
current file system. -/
theorem Tests.test_files_filter_aux (fs : FPath → Bool) :
    ∀ t : Tests, Tests.test_files fs t = Finset.filter (fun p => fs p = true) (Tests.all_main_files t)
  | .noTests => by simp [Tests.test_files, Tests.all_main_files]
  | .pythonTests m o exe => by
      simp only [Tests.test_files, Tests.all_main_files, Finset.filter_union,
        TestsList.test_files_union_filter_aux fs o]

/-- Helper: the child-list half of Tests.test_files_filter_aux. -/
theorem TestsList.test_files_union_filter_aux (fs : FPath → Bool) :
    ∀ l : TestsList, TestsList.test_files_union fs l = Finset.filter (fun p => fs p = true) (TestsList.all_main_files_union l)
  | .nil => by simp [TestsList.test_files_union, TestsList.all_main_files_union]
  | .cons t ts => by
      simp only [TestsList.test_files_union, TestsList.all_main_files_union, Finset.filter_union,
        Tests.test_files_filter_aux fs t, TestsList.test_files_union_filter_aux fs ts]
end

/-- Helper: merging NoTests from the right is the identity. -/
theorem Tests.merge_noTests_right : ∀ t : Tests, Tests.merge t .noTests = t := fun t => by
  cases t <;> rfl

/-- Helper: merging into a concrete suite yields a concrete suite. -/
theorem Tests.merge_keeps_concrete (t u : Tests) (h : t.isNoTests = false) :
    (Tests.merge t u).isNoTests = false := by
  cases t <;> cases u <;> simp_all [Tests.merge, Tests.isNoTests]

/-- Helper: under a runner that never succeeds, running any concrete suite
reports failure. -/
theorem Tests.run_fst_false (runner : FPath → Finset FPath → Bool × String)
    (hr : alwaysFailingRunner runner) (t : Tests) (h : t.isNoTests = false) :
    (Tests.run runner t).1 = false := by
  cases t with
  | noTests => simp [Tests.isNoTests] at h
  | pythonTests m o exe => simp [Tests.run, hr exe m]

/-- Helper: the refinement loop can only complete or run out of fuel, never
raise an error. -/
theorem refineLoop_isErr_false (ops : CoderOps) (spec : String) (integration : Bool) :
    ∀ (fuel : Nat) (g : Tests) (t tt : Finset FPath) (passes : Bool) (r : String),
      (refineLoop ops spec integration fuel g t tt passes r).isErr = false
  | 0, _, _, _, true, _ => rfl
  | _ + 1, _, _, _, true, _ => rfl
  | 0, _, _, _, false, _ => rfl
  | fuel + 1, g, t, tt, false, r => by
      simp only [refineLoop]
      exact refineLoop_isErr_false ops spec integration fuel _ _ _ _ _

/-- Helper: under a never-succeeding runner and concrete generated suites,
the refinement loop consumes all fuel. -/
theorem refineLoop_stuck (ops : CoderOps) (spec : String) (integration : Bool)
    (hr : alwaysFailingRunner ops.runner) :
    ∀ (fuel : Nat) (g : Tests) (t tt : Finset FPath) (r : String),
      g.isNoTests = false →
      refineLoop ops spec integration fuel g t tt false r = .outOfFuel
  | 0, _, _, _, _, _ => rfl
  | fuel + 1, g, t, tt, r, hg => by
      simp only [refineLoop]
      rw [Tests.run_fst_false ops.runner hr _ (Tests.merge_keeps_concrete g _ hg)]
      exact refineLoop_stuck ops spec integration hr fuel _ _ _ _
        (Tests.merge_keeps_concrete g _ hg)

/-- Helper: buildTail never raises an error. -/
theorem buildTail_isErr_false (ops : CoderOps) (loopFuel : Nat) (spec : String)
    (touched : Finset FPath) (unit_tests : Tests) :
    (buildTail ops loopFuel spec touched unit_tests).isErr = false := by
  simp only [buildTail]
  exact refineLoop_isErr_false ops spec _ loopFuel _ _ _ _ _

/-- Helper: with a never-succeeding runner and a generate_tests collaborator
that always returns a concrete suite, buildTail consumes all its fuel. -/
theorem buildTail_stuck (ops : CoderOps) (spec : String)
    (hr : alwaysFailingRunner ops.runner) (hg : alwaysConcreteTests ops.generate_tests) :
    ∀ (loopFuel : Nat) (touched : Finset FPath),
      buildTail ops loopFuel spec touched .noTests = .outOfFuel := by
  intro loopFuel touched
  simp only [buildTail]
  rw [Tests.merge_noTests_right]
  rw [Tests.run_fst_false ops.runner hr _ (hg spec touched _ ∅ none)]
  exact refineLoop_stuck ops spec _ hr loopFuel _ _ _ _ (hg spec touched _ ∅ none)

/-- C3: NoTests is a two-sided identity for the TestSuite merge operation:
for every TestSuite A, merge(NoTests, A) == A and merge(A, NoTests) == A. -/
theorem merge_noTests_identity (t : Tests) :
    Tests.merge .noTests t = t ∧ Tests.merge t .noTests = t :=
  ⟨by cases t <;> rfl, by cases t <;> rfl⟩

/-- C4 counterexample: merging two PythonTests suites of the same concrete
kind does not preserve the test-file union when the right suite has nested
children, because _combine copies only the right suite's main file set and
drops its other_tests.  Concretely, with every file present on disk, suite A
with main file a and suite B with main file b and a nested child with main
file c merge to a suite whose test files are a and b only, while
test_files(A) ∪ test_files(B) also holds c. -/
theorem merge_same_kind_drops_nested_cex :
    Tests.test_files (fun _ => true)
        (Tests.merge (.pythonTests {"a"} .nil "python")
          (.pythonTests {"b"} (.cons (.pythonTests {"c"} .nil "python") .nil) "python"))
      ≠ Tests.test_files (fun _ => true) (.pythonTests {"a"} .nil "python")
        ∪ Tests.test_files (fun _ => true)
            (.pythonTests {"b"} (.cons (.pythonTests {"c"} .nil "python") .nil) "python") := by
  decide

/-- C4 amended: for two TestSuites of the same concrete kind, the merge
coalesces the main file sets without nesting, and the test-file set of the
merge is the union of the two suites' test-file sets provided the right
suite has no nested children (the merge keeps the left suite's children but
drops the right suite's). -/
theorem merge_same_kind_test_files_union (fs : FPath → Bool) (m1 m2 : Finset FPath)
    (o1 : TestsList) (e1 e2 : FPath) :
    Tests.test_files fs (Tests.merge (.pythonTests m1 o1 e1) (.pythonTests m2 .nil e2)) =
      Tests.test_files fs (.pythonTests m1 o1 e1)
        ∪ Tests.test_files fs (.pythonTests m2 .nil e2) := by
  simp only [Tests.merge, Tests.test_files, TestsList.test_files_union, Finset.filter_union,
    Finset.union_empty]
  ext p
  simp only [Finset.mem_union]
  tauto

/-- C5: running a PythonTests suite yields the conjunction of the main
pytest invocation's success with the success of every nested child, and the
diagnostics are the main run's raw output followed by each child's
diagnostics in order, joined with the fixed separator; in particular success
is true exactly when the main run and all nested children succeed. -/
theorem run_success_and_diagnostics (runner : FPath → Finset FPath → Bool × String)
    (m : Finset FPath) (o : TestsList) (exe : FPath) :
    Tests.run runner (.pythonTests m o exe) =
      ((runner exe m).1 && ((TestsList.toList o).map (Tests.run runner)).all (fun r => r.1),
        String.intercalate TEST_RESULT_SEPARATOR
          ((runner exe m).2 :: ((TestsList.toList o).map (Tests.run runner)).map (fun r => r.2)))
    ∧ ((Tests.run runner (.pythonTests m o exe)).1 = true ↔
        (runner exe m).1 = true ∧ ∀ t ∈ TestsList.toList o, (Tests.run runner t).1 = true) := by
  constructor
  · rw [Tests.run, TestsList.runList_eq_map]
  · rw [Tests.run]
    simp [TestsList.runList_eq_map, List.all_eq_true, Bool.and_eq_true]

/-- C6 counterexample: a referenced test file missing from disk is not
excluded from the test run.  With main files a.py and b.py and only a.py
present on disk, the single pytest invocation the run performs still places
b.py on the command line, because _run passes the raw self.main_test_files
(python_tests.py line 38) rather than the filtered _main_test_files(). -/
theorem missing_file_still_run_cex :
    ¬ missingExcludedFromRun (fun p => p == "a.py")
        (.pythonTests {"a.py", "b.py"} .nil "python") := by
  decide

/-- C6 amended: a referenced test file missing from disk is silently excluded
from test_files() — which is exactly the transitive main-file union filtered
to the paths present on disk — but not from the run: the suite's own pytest
invocation always carries the complete, unfiltered main file set, so whether
a missing path fails the run is decided by the external pytest process, not
by the suite. -/
theorem missing_excluded_from_test_files_only (fs : FPath → Bool) (m : Finset FPath)
    (o : TestsList) (exe : FPath) :
    Tests.test_files fs (.pythonTests m o exe) =
      Finset.filter (fun p => fs p = true) (Tests.all_main_files (.pythonTests m o exe))
    ∧ (Tests.run_invocations (.pythonTests m o exe)).head? = some (exe, m) :=
  ⟨Tests.test_files_filter_aux fs _, rfl⟩

/-- C7: for every suite and file-system state, test_files returns the
transitive union of main files across the suite and all its nested children,
filtered to the paths present on disk at call time — hence it never contains
a path absent from disk. -/
theorem test_files_transitive_union_filtered (fs : FPath → Bool) (t : Tests) :
    Tests.test_files fs t = Finset.filter (fun p => fs p = true) (Tests.all_main_files t) :=
  Tests.test_files_filter_aux fs t

/-- C1: Coder.build does not return the pair (touched_files, tests) its
annotation, docstring and recursive call site promise.  A completing atomic
build (opsBase: design is atomic, scaffold writes scaffold.py, code writes
main.py, the generated suite holds t.py, the first run passes) returns the
bare union set of coders/coder.py line 83 with no accompanying TestSuite;
consequently a composite build, whose dev-step loop unpacks the recursive
result as a pair (line 53), fails on that unpacking. -/
theorem build_returns_single_set_not_pair :
    build opsBase 1 "spec" "home" = .ok (.inl {"scaffold.py", "main.py", "t.py"})
    ∧ build opsCompositeDemo 2 "spec" "home" = .err .unpackTypeError :=
  ⟨rfl, rfl⟩

/-- C2: the run/refine loop of Coder.build has no iteration bound.  For any
collaborators whose test runner never reports success, whose generate_tests
always returns a concrete suite, and whose design is atomic, the build
consumes every amount of fuel without terminating — there is no configured
maximum after which it stops, and no ConvergenceFailed error exists anywhere
in the code (BuildError has no such constructor). -/
theorem build_refine_loop_unbounded (ops : CoderOps) (spec : String) (home : FPath)
    (hr : alwaysFailingRunner ops.runner) (hg : alwaysConcreteTests ops.generate_tests)
    (hs : ops.should_generate_dev_plan (ops.design_solution spec) = false) :
    ∀ fuel : Nat, build ops fuel spec home = .outOfFuel := by
  intro fuel
  cases fuel with
  | zero => rfl
  | succ n =>
      simp only [build, hs, Bool.false_eq_true, if_false]
      exact buildTail_stuck ops spec hr hg n _

/-- Witness for build_refine_loop_unbounded at the concrete opsNeverPass. -/
theorem build_refine_loop_unbounded_witness :
    alwaysFailingRunner opsNeverPass.runner
    ∧ alwaysConcreteTests opsNeverPass.generate_tests
    ∧ opsNeverPass.should_generate_dev_plan (opsNeverPass.design_solution "spec") = false
    ∧ build opsNeverPass 5 "spec" "home" = .outOfFuel :=
  ⟨fun _ _ => rfl, fun _ _ _ _ _ => rfl, rfl,
    build_refine_loop_unbounded opsNeverPass "spec" "home"
      (fun _ _ => rfl) (fun _ _ _ _ _ => rfl) rfl 5⟩

/-- C8 counterexample: an empty dev plan is not rejected.  With collaborators
whose design is composite and whose generated dev plan is empty
(opsEmptyPlan), build raises no error at all — it runs zero dev steps and
completes normally with the scaffold and generated-test files — rather than
failing with any InvalidDevPlan error (no such error exists in the code). -/
theorem empty_dev_plan_no_error_cex :
    (build opsEmptyPlan 2 "spec" "home").isErr = false
    ∧ build opsEmptyPlan 2 "spec" "home" = .ok (.inl {"scaffold.py", "t.py"}) :=
  ⟨rfl, rfl⟩

/-- C8 amended: Coder.build performs no validation of the dev plan.  When the
design is composite and the generated plan is empty, the dev-step loop runs
zero times and the build proceeds directly to test generation; no error can
be raised on that path for any amount of fuel. -/
theorem build_empty_plan_never_errs (ops : CoderOps) (spec : String) (home : FPath)
    (hs : ops.should_generate_dev_plan (ops.design_solution spec) = true)
    (hp : ops.generate_dev_plan (ops.design_solution spec) = []) :
    ∀ fuel : Nat, (build ops fuel spec home).isErr = false := by
  intro fuel
  cases fuel with
  | zero => rfl
  | succ n =>
      simp only [build, hs, if_true, hp, devSteps]
      exact buildTail_isErr_false ops n spec _ _

/-- Witness for build_empty_plan_never_errs at the concrete opsEmptyPlan. -/
theorem build_empty_plan_never_errs_witness :
    opsEmptyPlan.should_generate_dev_plan (opsEmptyPlan.design_solution "spec") = true
    ∧ opsEmptyPlan.generate_dev_plan (opsEmptyPlan.design_solution "spec") = []
    ∧ (build opsEmptyPlan 2 "spec" "home").isErr = false :=
  ⟨rfl, rfl, build_empty_plan_never_errs opsEmptyPlan "spec" "home" rfl rfl 2⟩

/-- C9: choose_subcoder with an empty allowed_subcoders set fails with the
NoSubcoderAvailable error (the ValueError of coders/coder.py line 124) no
matter which chooser and task are supplied — the abstract chooser is never
consulted, so no I/O happens — and inside build a composite plan whose first
dev step meets an empty allowed_subcoders set aborts the whole build with
that error before the step's recursive sub-build can touch any file. -/
theorem choose_subcoder_empty_guard (ops : CoderOps) (spec home task : String) (fuel : Nat)
    (step : String) (rest : List String) (ch : String → Finset String → String) :
    choose_subcoder ch task ∅ = .error .noSubcoderAvailable
    ∧ (ops.allowed_subcoders = ∅ →
        ops.should_generate_dev_plan (ops.design_solution spec) = true →
        ops.generate_dev_plan (ops.design_solution spec) = step :: rest →
        build ops (fuel + 1) spec home = .err .noSubcoderAvailable) := by
  constructor
  · rfl
  · intro ha hsg hp
    simp only [build, hsg, if_true, hp, devSteps, ha, choose_subcoder, Finset.card_empty]

/-- Witness for choose_subcoder_empty_guard at the concrete opsNoSubcoders. -/
theorem choose_subcoder_empty_guard_witness :
    choose_subcoder opsNoSubcoders.chooser "task" ∅ = .error .noSubcoderAvailable
    ∧ opsNoSubcoders.allowed_subcoders = ∅
    ∧ opsNoSubcoders.should_generate_dev_plan (opsNoSubcoders.design_solution "spec") = true
    ∧ opsNoSubcoders.generate_dev_plan (opsNoSubcoders.design_solution "spec") = ["step1"]
    ∧ build opsNoSubcoders 1 "spec" "home" = .err .noSubcoderAvailable :=
  ⟨(choose_subcoder_empty_guard opsNoSubcoders "spec" "home" "task" 0 "step1" []
      opsNoSubcoders.chooser).1,
    rfl, rfl, rfl,
    (choose_subcoder_empty_guard opsNoSubcoders "spec" "home" "task" 0 "step1" []
      opsNoSubcoders.chooser).2 rfl rfl rfl⟩

/-- C10: PythonTests._combine is in-place and left-biased.  For a heap whose
object a is a PythonTests, combining any object b into a returns the very
same reference a; no object other than a changes and b itself is left
unmodified; if b is also a PythonTests, a's main file set becomes the union
and a's nested children are untouched; otherwise b's reference is added to
a's nested children and a's main file set is untouched. -/
theorem combine_in_place_left_biased (h : Heap) (a b : Nat) (m : Finset FPath)
    (o : Finset Nat) (exe : FPath) (ha : h a = .pythonTestsObj m o exe) :
    (combineInPlace h a b).2 = a
    ∧ (combineInPlace h a b).1 b = h b
    ∧ (∀ i, i ≠ a → (combineInPlace h a b).1 i = h i)
    ∧ (∀ m2 o2 e2, h b = .pythonTestsObj m2 o2 e2 →
        (combineInPlace h a b).1 a = .pythonTestsObj (m ∪ m2) o exe)
    ∧ (h b = .noTestsObj → (combineInPlace h a b).1 a = .pythonTestsObj m (insert b o) exe) := by
  unfold combineInPlace
  rw [ha]
  cases hb : h b with
  | noTestsObj =>
      have hba : b ≠ a := by
        intro e
        rw [e, ha] at hb
        exact TestsObj.noConfusion hb
      dsimp only
      refine ⟨rfl, ?_, ?_, ?_, ?_⟩
      · rw [Function.update_noteq hba, hb]
      · intro i hi
        exact Function.update_noteq hi _ _
      · intro m2 o2 e2 hb2
        exact TestsObj.noConfusion hb2
      · intro _
        exact Function.update_same a _ h
  | pythonTestsObj m2 o2 e2 =>
      dsimp only
      refine ⟨rfl, ?_, ?_, ?_, ?_⟩
      · rcases eq_or_ne b a with e | e
        · subst e
          have eq1 := ha.symm.trans hb
          injection eq1 with h1 h2 h3
          subst h1
          subst h2
          subst h3
          rw [Function.update_same, Finset.union_self]
        · rw [Function.update_noteq e, hb]
      · intro i hi
        exact Function.update_noteq hi _ _
      · intro m2' o2' e2' hb2
        injection hb2 with h1 h2 h3
        subst h1
        exact Function.update_same a _ h
      · intro hbn
        exact TestsObj.noConfusion hbn

/-- Witness for combine_in_place_left_biased on the concrete heapDemo,
combining the NoTests object 1 into the PythonTests object 0. -/
theorem combine_in_place_left_biased_witness :
    heapDemo 0 = .pythonTestsObj {"a.py"} ∅ "python"
    ∧ (combineInPlace heapDemo 0 1).2 = 0
    ∧ (combineInPlace heapDemo 0 1).1 1 = heapDemo 1
    ∧ (combineInPlace heapDemo 0 1).1 0 = .pythonTestsObj {"a.py"} (insert 1 ∅) "python" :=
  ⟨rfl,
    (combine_in_place_left_biased heapDemo 0 1 {"a.py"} ∅ "python" rfl).1,
    (combine_in_place_left_biased heapDemo 0 1 {"a.py"} ∅ "python" rfl).2.1,
    (combine_in_place_left_biased heapDemo 0 1 {"a.py"} ∅ "python" rfl).2.2.2.2 rfl⟩
